import Mathlib

/-!
# Verification of the VoiceKit capture-session orchestration layer

Shallow embedding of the iOS `VoiceKitService` (Swift, `src/unnamed/part_000`):
the session state machine (`startRecording`, `stopRecording`, `handleError`),
the recognition-task callback, the silence-finalization timer closure, the
audio-tap closure with its PCM16 sample conversion, and the audio-session
routing save/restore.

Modelling conventions:
- Delegate calls (`onPartialResult`, `onResult`, `onError`,
  `onListeningStateChanged`, `onAudioBuffer`) are recorded as an emitted
  `Event` list, in program order.  Swift `didSet` observers fire on every
  assignment, so each assignment to `isListening` emits an event.
- The three audio-session fields `originalAudioCategory` / `originalAudioMode`
  / `originalAudioOptions` are always set and cleared together in the source,
  so they are modelled as one `Option AudioConfig`.
- `lastResultTimer` models the armed, not-yet-fired one-shot `Timer` as
  `Option (deadline in ms × the options captured by the timer closure)`;
  firing consumes the slot, and `Timer.invalidate` plus reschedule is an
  overwrite of the slot.
- Swift `throws` from `startRecording` (audio-session configuration or
  engine start) is modelled by an injected failure point and a `Bool`
  "threw" flag; a failing call aborts at its program point, exactly as a
  thrown error does, with no further mutation.
- Float amplitudes are modelled as exact rationals (`ℚ`); the concrete
  amplitudes appearing in the claims are exactly representable.
- `String.trimmingCharacters(in: .whitespacesAndNewlines).isEmpty` is
  modelled as `isBlank`: every character is whitespace.
-/

/-- The `VoiceError` cases this service actually raises. -/
inductive VoiceError where
  | invalidState
  | unknown (message : String)
deriving DecidableEq, Repr

/-- One delegate call of `VoiceKitServiceDelegate`, in emission order. -/
inductive Event where
  | onAvailabilityChanged (available : Bool)
  | onPartialResult (text : String)
  | onResult (text : String)
  | onError (e : VoiceError)
  | onListeningStateChanged (listening : Bool)
  | onAudioBuffer (frame : List Int)
deriving DecidableEq, Repr

/-- Shared audio-session routing configuration (category, mode, options). -/
structure AudioConfig where
  category : String
  mode : String
  options : String
deriving DecidableEq, Repr

/-- The capture configuration `setCategory(.record, mode: .measurement, options: .duckOthers)` applies. -/
def recordConfig : AudioConfig :=
  { category := "record", mode := "measurement", options := "duckOthers" }

/-- The `options: [String: Any]` dictionary, restricted to the keys the
service reads.  Absent keys are `none`; the code supplies defaults at each
read site (`?? ...`), mirrored by `Option.getD` below. -/
structure SessionOpts where
  locale : Option String := none
  mode : Option String := none
  silenceTimeoutMs : Option Nat := none
  frameLength : Option Nat := none
  sampleRate : Option Nat := none
  enableAudioBuffer : Option Bool := none
deriving DecidableEq, Repr

/-- The `NSError` information `handleError` inspects. -/
structure ErrInfo where
  domain : String
  code : Int
  message : String
deriving DecidableEq, Repr

/-- The mutable fields of `VoiceKitService`, plus the externally visible
resources it manipulates (tap installed, engine running, audio session active,
current shared routing configuration). -/
structure ServiceState where
  isListening : Bool
  recognitionRequest : Bool
  recognitionTask : Bool
  lastResultTimer : Option (Nat × SessionOpts)
  lastTranscription : Option String
  currentOptions : SessionOpts
  originalAudioConfig : Option AudioConfig
  recognizerLocale : String
  tapInstalled : Bool
  engineRunning : Bool
  sessionActive : Bool
  audioConfig : AudioConfig
deriving DecidableEq, Repr

/-- A representative pre-session shared routing configuration, distinct from
`recordConfig`. -/
def ambientConfig : AudioConfig :=
  { category := "ambient", mode := "default", options := "mixWithOthers" }

/-- The service as constructed: idle, no resources held. -/
def initialState : ServiceState :=
  { isListening := false
    recognitionRequest := false
    recognitionTask := false
    lastResultTimer := none
    lastTranscription := none
    currentOptions := {}
    originalAudioConfig := none
    recognizerLocale := "en-US"
    tapInstalled := false
    engineRunning := false
    sessionActive := false
    audioConfig := ambientConfig }

/-- `restoreAudioSession`: reapply the saved configuration if all three saved
fields are present, then clear them; otherwise a no-op.  (A failing
`setCategory` during restore only logs; the saved fields are cleared
regardless, so the success path is the faithful model.) -/
def restoreAudioSession (s : ServiceState) : ServiceState :=
  match s.originalAudioConfig with
  | none => s
  | some cfg => { s with audioConfig := cfg, originalAudioConfig := none }

/-- The failure points of `startRecording` that can throw: audio-session
`setCategory`, audio-session `setActive`, and `audioEngine.start`. -/
inductive StartFailure where
  | categoryFail
  | activeFail
  | engineFail
deriving DecidableEq, Repr

/-- `startRecording(options:)`.  Returns (post-state, emitted events, threw).
Mirrors the source order: listening guard (which only emits
`onError(.invalidState)`), store `currentOptions`, cancel any leftover task,
recreate the recognizer, save the current routing configuration, apply the
capture configuration, activate the session, create the recognition request
and task, install the tap, and start the engine; `isListening = true` last,
emitting `onListeningStateChanged(true)`.  A thrown error propagates with no
rollback. -/
def startRecording (fail : Option StartFailure) (options : SessionOpts)
    (s : ServiceState) : ServiceState × List Event × Bool :=
  if s.isListening then
    (s, [Event.onError VoiceError.invalidState], false)
  else
    let s1 : ServiceState :=
      { s with currentOptions := options
               recognitionTask := false
               recognizerLocale := options.locale.getD "en-US"
               originalAudioConfig := some s.audioConfig }
    if fail = some StartFailure.categoryFail then (s1, [], true)
    else
      let s2 := { s1 with audioConfig := recordConfig }
      if fail = some StartFailure.activeFail then (s2, [], true)
      else
        let s3 : ServiceState :=
          { s2 with sessionActive := true
                    recognitionRequest := true
                    recognitionTask := true
                    tapInstalled := true }
        if fail = some StartFailure.engineFail then (s3, [], true)
        else
          ({ s3 with engineRunning := true, isListening := true },
           [Event.onListeningStateChanged true], false)

/-- `stopRecording()`.  The idle guard only emits `onError(.invalidState)`.
On the listening path: stop the engine, remove the tap, `endAudio` and drop
the request, cancel and drop the task, `isListening = false` (emitting
`onListeningStateChanged(false)`), clear `currentOptions`, restore the audio
session.  Note: the source neither invalidates `lastResultTimer` nor clears
`lastTranscription` here. -/
def stopRecording (s : ServiceState) : ServiceState × List Event :=
  if !s.isListening then
    (s, [Event.onError VoiceError.invalidState])
  else
    let s1 : ServiceState :=
      { s with engineRunning := false
               tapInstalled := false
               recognitionRequest := false
               recognitionTask := false
               isListening := false
               currentOptions := {} }
    (restoreAudioSession s1, [Event.onListeningStateChanged false])

/-- `handleError(_:)`: invalidate the timer, clear the transcription, stop the
engine, remove the tap, drop request and task, `isListening = false`
(emitting `onListeningStateChanged(false)`), clear options, restore the audio
session; then swallow the `kAFAssistantErrorDomain`/1110 "no speech detected"
error, and report any other error as `onError(.unknown(...))`. -/
def handleError (e : ErrInfo) (s : ServiceState) : ServiceState × List Event :=
  let s1 : ServiceState :=
    { s with lastResultTimer := none
             lastTranscription := none
             engineRunning := false
             tapInstalled := false
             recognitionRequest := false
             recognitionTask := false
             isListening := false
             currentOptions := {} }
  let s2 := restoreAudioSession s1
  if e.domain = "kAFAssistantErrorDomain" ∧ e.code = 1110 then
    (s2, [Event.onListeningStateChanged false])
  else
    (s2, [Event.onListeningStateChanged false,
          Event.onError (VoiceError.unknown e.message)])

/-- `trimmingCharacters(in: .whitespacesAndNewlines).isEmpty`: true iff every
character of the string is whitespace (so also for the empty string). -/
def isBlank (text : String) : Bool :=
  text.data.all Char.isWhitespace

/-- The body of the finalization-timer closure (`lastResultTimer` callback),
with `options` the dictionary captured by the closure at `startRecording`.
If `lastTranscription` is present: stop the recording when the captured
`mode` string equals `"single"` or `"continuous-and-stop"` — the source's
third disjunct `mode == nil` sits inside `if let mode = options["mode"] as?
String` where `mode` is non-optional, so it is identically false and an
absent `mode` key performs no stop — then emit `onResult`. -/
def timerFired (options : SessionOpts) (s : ServiceState) :
    ServiceState × List Event :=
  match s.lastTranscription with
  | none => (s, [])
  | some finalTranscription =>
      let stopped : ServiceState × List Event :=
        match options.mode with
        | some m =>
            if m = "single" ∨ m = "continuous-and-stop" then stopRecording s
            else (s, [])
        | none => (s, [])
      (stopped.1, stopped.2 ++ [Event.onResult finalTranscription])

/-- A scheduled one-shot timer fires: the pending slot is consumed and its
closure body runs with the options it captured. -/
def fireTimer (s : ServiceState) : ServiceState × List Event :=
  match s.lastResultTimer with
  | none => (s, [])
  | some d => timerFired d.2 { s with lastResultTimer := none }

/-- The recognition-task callback, with `options` the dictionary captured by
the closure and `now` the arrival time in ms.  `if error != nil` runs
`handleError` (and does not return); `if let result` then overwrites
`lastTranscription` with the new text, returns early when the trimmed text is
empty (no event, no timer change), and otherwise emits `onPartialResult` and
re-arms the timer with `silenceTimeoutMs` (default 1000 ms). -/
def recognitionCallback (options : SessionOpts) (now : Nat)
    (err : Option ErrInfo) (res : Option String) (s : ServiceState) :
    ServiceState × List Event :=
  let afterErr : ServiceState × List Event :=
    match err with
    | some e => handleError e s
    | none => (s, [])
  match res with
  | none => afterErr
  | some text =>
      let s1 := { afterErr.1 with lastTranscription := some text }
      if isBlank text then (s1, afterErr.2)
      else
        let timeoutMs := options.silenceTimeoutMs.getD 1000
        (({ s1 with lastResultTimer := some (now + timeoutMs, options) }),
         afterErr.2 ++ [Event.onPartialResult text])

/-- Truncation toward zero, the rounding Swift's `Int16.init(_: Float)`
performs. -/
def truncQ (x : ℚ) : ℤ :=
  if 0 ≤ x then ⌊x⌋ else ⌈x⌉

/-- The sample conversion of the tap closure:
`Int16(max(-32768, min(32767, floatSample * 32767)))` — scale first, clamp
the scaled value to `[-32768, 32767]`, truncate toward zero. -/
def pcm16 (x : ℚ) : ℤ :=
  truncQ (max (-32768) (min 32767 (x * 32767)))

/-- Modelled from the spec's words for comparison (claim C5): the conversion
the spec states, `round(clamp(sample, -1.0, 1.0) * 32767)` — clamp the
amplitude to `[-1, 1]` first, scale, round to nearest. -/
def specPcm16 (x : ℚ) : ℤ :=
  round (max (-1) (min 1 x) * 32767)

/-- The tap closure installed on the input node, on one delivered hardware
buffer (its samples as normalized amplitudes).  Returns (whether the buffer
was appended to the recognition request, the PCM16 frame delivered to
`onAudioBuffer` if any).  The append is unconditional; the frame is built
only when `currentOptions.enableAudioBuffer` is true, over
`min(buffer.frameLength, frameLength)` samples (`frameLength` read from
`currentOptions`, default 512). -/
def installTapCallback (bufferSamples : List ℚ) (s : ServiceState) :
    Bool × Option (List Int) :=
  let forwarded := s.recognitionRequest
  let frame : Option (List Int) :=
    if s.currentOptions.enableAudioBuffer.getD false then
      let fl := s.currentOptions.frameLength.getD 512
      let samplesToProcess := min bufferSamples.length fl
      some ((bufferSamples.take samplesToProcess).map pcm16)
    else none
  (forwarded, frame)

/-- Fire the armed timer at time `now` if its deadline has passed. -/
def processFires (now : Nat) (s : ServiceState) : ServiceState × List Event :=
  match s.lastResultTimer with
  | some d => if d.1 ≤ now then timerFired d.2 { s with lastResultTimer := none }
              else (s, [])
  | none => (s, [])

/-- Run a session forward over timestamped non-empty partial results, firing
the armed timer whenever its deadline precedes the next arrival, and finally
firing any timer whose deadline is within the horizon. -/
def runTimedPartials (opts : SessionOpts) :
    ServiceState → List (Nat × String) → Nat → ServiceState × List Event
  | s, [], horizon => processFires horizon s
  | s, (t, txt) :: rest, horizon =>
      let p := processFires t s
      let c := recognitionCallback opts t none (some txt) p.1
      let r := runTimedPartials opts c.1 rest horizon
      (r.1, p.2 ++ c.2 ++ r.2)

/-! ## Concrete sessions used by the claims -/

/-- `{mode: "single", silenceTimeoutMs: 1000}`. -/
def singleOpts : SessionOpts :=
  { mode := some "single", silenceTimeoutMs := some 1000 }

/-- Mid-session state: started with `singleOpts`, one non-empty partial
result `"hello"` received at t = 0 (timer armed for t = 1000). -/
def listeningState : ServiceState :=
  (recognitionCallback singleOpts 0 none (some "hello")
    (startRecording none singleOpts initialState).1).1

/-- The state right after `stopRecording()` succeeds on `listeningState`. -/
def stoppedState : ServiceState :=
  (stopRecording listeningState).1

/-- Options with the `mode` key omitted entirely. -/
def noModeOpts : SessionOpts :=
  { silenceTimeoutMs := some 1000 }

/-- Mid-session state of a session started without a `mode` key, after the
partial result `"hello"` at t = 0. -/
def noModeListening : ServiceState :=
  (recognitionCallback noModeOpts 0 none (some "hello")
    (startRecording none noModeOpts initialState).1).1

/-- The `NSError` the speech framework reports when no speech was detected. -/
def noSpeechErr : ErrInfo :=
  { domain := "kAFAssistantErrorDomain", code := 1110, message := "No speech detected" }

/-- A recognition-stream error other than "no speech detected". -/
def otherErr : ErrInfo :=
  { domain := "kAFAssistantErrorDomain", code := 203, message := "Retry" }

/-- The spec's §8 scenario: `start({mode: Single, silenceTimeoutMs: 1000})`,
partials `"h"`, `"he"`, `"hello"` at t = 0, 100, 200 ms, then silence; the
armed deadline t = 1200 passes with no further partial.  Final state and the
full emitted event trace. -/
def scenarioC6 : ServiceState × List Event :=
  let st := startRecording none singleOpts initialState
  let r := runTimedPartials singleOpts st.1 [(0, "h"), (100, "he"), (200, "hello")] 1200
  (r.1, st.2.1 ++ r.2)

/-! ## Post-condition packages -/

/-- What `stopRecording` actually establishes from a listening state:
engine stopped, tap removed, stream closed, state `Idle`, options cleared,
routing restored from the snapshot (or untouched if none), exactly one
`onListeningStateChanged(false)` event — while the armed finalization timer
and the transcript snapshot survive unchanged. -/
def StopTeardownPost (s : ServiceState) : Prop :=
  (stopRecording s).1.engineRunning = false ∧
  (stopRecording s).1.tapInstalled = false ∧
  (stopRecording s).1.recognitionRequest = false ∧
  (stopRecording s).1.recognitionTask = false ∧
  (stopRecording s).1.isListening = false ∧
  (stopRecording s).1.currentOptions = {} ∧
  (stopRecording s).1.audioConfig = s.originalAudioConfig.getD s.audioConfig ∧
  (stopRecording s).1.originalAudioConfig = none ∧
  (stopRecording s).1.lastResultTimer = s.lastResultTimer ∧
  (stopRecording s).1.lastTranscription = s.lastTranscription ∧
  (stopRecording s).2 = [Event.onListeningStateChanged false]

/-- What `handleError` establishes: full teardown (timer cancelled,
transcript cleared, tap removed, engine stopped, stream closed, `Idle`,
routing restored), and an `onError` event exactly when the error is not the
"no speech detected" condition. -/
def HandleErrorPost (e : ErrInfo) (s : ServiceState) : Prop :=
  (handleError e s).1.lastResultTimer = none ∧
  (handleError e s).1.lastTranscription = none ∧
  (handleError e s).1.tapInstalled = false ∧
  (handleError e s).1.engineRunning = false ∧
  (handleError e s).1.recognitionRequest = false ∧
  (handleError e s).1.recognitionTask = false ∧
  (handleError e s).1.isListening = false ∧
  (handleError e s).1.originalAudioConfig = none ∧
  (handleError e s).1.audioConfig = s.originalAudioConfig.getD s.audioConfig ∧
  (handleError e s).2 =
    (if e.domain = "kAFAssistantErrorDomain" ∧ e.code = 1110 then
       [Event.onListeningStateChanged false]
     else
       [Event.onListeningStateChanged false,
        Event.onError (VoiceError.unknown e.message)])

/-- What a failing `startRecording` actually leaves behind: the call throws,
emits no events, never reaches `Listening`, and keeps the saved pre-call
routing snapshot — but performs no rollback: after an engine-start failure
the tap is still installed, the recognition stream still open, and the
shared routing still the capture configuration; only a category failure
happens early enough to leave the routing untouched. -/
def StartFailurePost (f : StartFailure) (opts : SessionOpts) (s : ServiceState) : Prop :=
  (startRecording (some f) opts s).2.2 = true ∧
  (startRecording (some f) opts s).2.1 = [] ∧
  (startRecording (some f) opts s).1.isListening = false ∧
  (startRecording (some f) opts s).1.originalAudioConfig = some s.audioConfig ∧
  (f = StartFailure.engineFail →
     (startRecording (some f) opts s).1.tapInstalled = true ∧
     (startRecording (some f) opts s).1.recognitionRequest = true ∧
     (startRecording (some f) opts s).1.recognitionTask = true ∧
     (startRecording (some f) opts s).1.audioConfig = recordConfig) ∧
  (f = StartFailure.activeFail →
     (startRecording (some f) opts s).1.audioConfig = recordConfig) ∧
  (f = StartFailure.categoryFail →
     (startRecording (some f) opts s).1.audioConfig = s.audioConfig)

/-- How late deliveries actually behave on an `Idle` (torn-down) state with a
surviving transcript `t`: the timer closure still emits the stale result
(plus the `InvalidState` error its nested `stopRecording` raises in
`"single"` mode) and leaves the state `Idle`; a late non-blank partial `txt`
still emits `onPartialResult` and re-arms the timer. -/
def LateEventsPost (opts : SessionOpts) (t txt : String) (now : Nat)
    (s : ServiceState) : Prop :=
  (timerFired opts s).2 = [Event.onError VoiceError.invalidState, Event.onResult t] ∧
  (timerFired opts s).1 = s ∧
  (recognitionCallback opts now none (some txt) s).2 = [Event.onPartialResult txt] ∧
  (recognitionCallback opts now none (some txt) s).1.lastResultTimer =
    some (now + opts.silenceTimeoutMs.getD 1000, opts)

/-- What a partial result does to the transcript snapshot: every incoming
text overwrites `lastTranscription` (before the emptiness check); a blank
`txt` additionally emits nothing and leaves the timer slot unchanged, and a
subsequently firing timer emits the blank text as the final result. -/
def WhitespaceOverwritePost (opts : SessionOpts) (txt : String) (now : Nat)
    (s : ServiceState) : Prop :=
  (∀ anyText : String,
     (recognitionCallback opts now none (some anyText) s).1.lastTranscription
       = some anyText) ∧
  (recognitionCallback opts now none (some txt) s).2 = [] ∧
  (recognitionCallback opts now none (some txt) s).1.lastResultTimer
    = s.lastResultTimer ∧
  Event.onResult txt ∈
    (fireTimer (recognitionCallback opts now none (some txt) s).1).2

/-- The two `InvalidState` self-loops: `startRecording` on a listening state
and `stopRecording` on an idle state each return the state unchanged with a
single `onError(.invalidState)` event (and `startRecording` does not throw). -/
def SelfLoopPost (f : Option StartFailure) (opts : SessionOpts)
    (sL sI : ServiceState) : Prop :=
  startRecording f opts sL = (sL, [Event.onError VoiceError.invalidState], false) ∧
  stopRecording sI = (sI, [Event.onError VoiceError.invalidState])

/-! ## Helper lemmas -/

theorem truncQ_bounds (y : ℚ) (h1 : (-32768 : ℚ) ≤ y) (h2 : y ≤ 32767) :
    -32768 ≤ truncQ y ∧ truncQ y ≤ 32767 := by
  unfold truncQ
  split
  · refine ⟨Int.le_floor.mpr (by exact_mod_cast h1), ?_⟩
    have h := (Int.floor_le y).trans h2
    exact_mod_cast h
  · refine ⟨?_, Int.ceil_le.mpr (by exact_mod_cast h2)⟩
    have h := h1.trans (Int.le_ceil y)
    exact_mod_cast h

theorem timerFired_mem (opts : SessionOpts) (s : ServiceState) (t : String)
    (hT : s.lastTranscription = some t) :
    Event.onResult t ∈ (timerFired opts s).2 := by
  unfold timerFired
  rw [hT]
  simp

/-! ## Claims -/

/-- C1 (code bug evidence): the source's own comment says an omitted `mode`
key must stop the recording like `Single`, but the `mode == nil` test sits
inside `if let mode = options["mode"] as? String` and is identically false.
Concretely, when the finalization timer of a session started without a
`mode` key fires, the session stays `Listening` with the tap installed and
the engine running — no teardown — while the final result is still emitted. -/
theorem timerFire_modeOmitted_keepsListening :
    noModeListening.isListening = true ∧
    noModeListening.lastResultTimer = some (1000, noModeOpts) ∧
    (fireTimer noModeListening).1.isListening = true ∧
    (fireTimer noModeListening).1.tapInstalled = true ∧
    (fireTimer noModeListening).1.engineRunning = true ∧
    (fireTimer noModeListening).2 = [Event.onResult "hello"] := by
  decide

/-- C2 (counterexample): after `stopRecording()` succeeds on a listening
session with an armed finalization timer and transcript `"hello"`, the timer
is still armed and the transcript snapshot still present — contradicting
"cancels any armed finalization timer" and "clears the transcript snapshot". -/
theorem stopRecording_leavesTimer_counterexample :
    listeningState.isListening = true ∧
    listeningState.lastResultTimer = some (1000, singleOpts) ∧
    (stopRecording listeningState).1.isListening = false ∧
    (stopRecording listeningState).1.lastResultTimer = some (1000, singleOpts) ∧
    (stopRecording listeningState).1.lastTranscription = some "hello" := by
  decide

/-- C2 (amended): a successful `stop()` from `Listening` removes the tap,
stops the engine, closes the recognition stream, restores routing, clears
the options, transitions to `Idle` and emits exactly
`listeningStateChanged(false)` — but does NOT cancel an armed finalization
timer and does NOT clear the transcript snapshot. -/
theorem stopRecording_amended (s : ServiceState) (h : s.isListening = true) :
    StopTeardownPost s := by
  unfold StopTeardownPost
  cases hc : s.originalAudioConfig <;>
    simp [stopRecording, restoreAudioSession, h, hc]

/-- C2 (witness): the amended stop contract holds at the concrete
mid-session state. -/
theorem stopRecording_amended_witness :
    listeningState.isListening = true ∧ StopTeardownPost listeningState :=
  ⟨by decide, stopRecording_amended listeningState (by decide)⟩

/-- C3 (counterexample): when `audioEngine.start()` fails, `startRecording`
throws with the session never `Listening`, but the tap is left installed,
the recognition stream open, and the shared routing is still the capture
configuration instead of the pre-call one — no rollback happens. -/
theorem startFailure_noRollback_counterexample :
    (startRecording (some StartFailure.engineFail) {} initialState).2.2 = true ∧
    (startRecording (some StartFailure.engineFail) {} initialState).1.isListening = false ∧
    (startRecording (some StartFailure.engineFail) {} initialState).1.tapInstalled = true ∧
    (startRecording (some StartFailure.engineFail) {} initialState).1.recognitionRequest = true ∧
    (startRecording (some StartFailure.engineFail) {} initialState).1.audioConfig = recordConfig ∧
    initialState.audioConfig ≠ recordConfig := by
  decide

/-- C3 (amended): a failing setup step makes `startRecording` throw with no
events and the session still `Idle`, and the pre-call routing snapshot is
saved — but nothing acquired before the failure point is rolled back: after
an engine-start failure the tap, the open stream and the capture routing all
remain; only a failure of the very first routing call leaves routing
untouched. -/
theorem startRecording_failure_amended (f : StartFailure) (opts : SessionOpts)
    (s : ServiceState) (h : s.isListening = false) :
    StartFailurePost f opts s := by
  unfold StartFailurePost
  cases f <;> simp [startRecording, h]

/-- C3 (witness): the no-rollback contract holds for an engine-start failure
on the initial state. -/
theorem startRecording_failure_amended_witness :
    initialState.isListening = false ∧
    StartFailurePost StartFailure.engineFail {} initialState :=
  ⟨by decide, startRecording_failure_amended StartFailure.engineFail {} initialState (by decide)⟩

/-- C4 (counterexample): after teardown (`stoppedState` is `Idle`), a late
firing of the still-armed finalization timer is NOT discarded: it emits an
`InvalidState` error (from the nested `stopRecording`) followed by a
`result("hello")` event for the ended session. -/
theorem lateTimer_counterexample :
    stoppedState.isListening = false ∧
    (fireTimer stoppedState).2 =
      [Event.onError VoiceError.invalidState, Event.onResult "hello"] ∧
    (fireTimer stoppedState).2 ≠ ([] : List Event) := by
  decide

/-- C4 (amended): neither the timer closure nor the recognition callback
checks that the session is still `Listening`.  On an `Idle` state with a
surviving transcript, a late timer firing emits the stale result plus an
`InvalidState` error (in `"single"` mode) and leaves the state unchanged,
and a late non-blank partial emits `onPartialResult` and re-arms the timer. -/
theorem lateEvents_amended (opts : SessionOpts) (t txt : String) (now : Nat)
    (s : ServiceState) (hIdle : s.isListening = false)
    (hT : s.lastTranscription = some t) (hMode : opts.mode = some "single")
    (hTxt : isBlank txt = false) :
    LateEventsPost opts t txt now s := by
  unfold LateEventsPost
  simp [timerFired, stopRecording, recognitionCallback, hIdle, hT, hMode, hTxt]

/-- C4 (witness): the late-event behaviour holds at the concrete post-stop
state, for the stale transcript `"hello"` and a late partial `"late"`. -/
theorem lateEvents_amended_witness :
    (stoppedState.isListening = false ∧
     stoppedState.lastTranscription = some "hello" ∧
     singleOpts.mode = some "single" ∧ isBlank "late" = false) ∧
    LateEventsPost singleOpts "hello" "late" 5000 stoppedState :=
  ⟨by decide,
   lateEvents_amended singleOpts "hello" "late" 5000 stoppedState
     (by decide) (by decide) (by decide) (by decide)⟩

/-- C5 (counterexample): the source converts by scaling first, clamping the
scaled value to `[-32768, 32767]`, and truncating toward zero — so an
amplitude of `-1.0` maps to `-32767`, not `-32768` as the claim states (the
claim's own formula `round(clamp(x, -1, 1) * 32767)` also gives `-32767`
there), and at `0.5` the code truncates to `16383` while the claimed
rounding formula gives `16384`. -/
theorem pcm16_counterexample :
    pcm16 (-1) = -32767 ∧ pcm16 (-1) ≠ -32768 ∧
    specPcm16 (-1) = -32767 ∧
    pcm16 (1/2) = 16383 ∧ specPcm16 (1/2) = 16384 ∧
    pcm16 (1/2) ≠ specPcm16 (1/2) := by
  refine ⟨?_, by norm_num [pcm16, truncQ, Int.ceil_neg], ?_, ?_, ?_, ?_⟩
  · norm_num [pcm16, truncQ, Int.ceil_neg]
  · norm_num [specPcm16, round_eq, Int.ceil_neg]
  · norm_num [pcm16, truncQ]
  · norm_num [specPcm16, round_eq]
  · norm_num [pcm16, truncQ, specPcm16, round_eq]

/-- C5 (amended): the conversion is `truncQ(clamp(x * 32767, -32768, 32767))`
(truncation toward zero of the scaled-then-clamped value): `1.0 ↦ 32767`,
`0.0 ↦ 0`, `-1.0 ↦ -32767`, out-of-range inputs clamp after scaling
(`1.2 ↦ 32767`, `-1.2 ↦ -32768`), and every output lies in
`[-32768, 32767]`. -/
theorem pcm16_amended :
    pcm16 1 = 32767 ∧ pcm16 0 = 0 ∧ pcm16 (-1) = -32767 ∧
    pcm16 (12/10) = 32767 ∧ pcm16 (-12/10) = -32768 ∧
    ∀ x : ℚ, -32768 ≤ pcm16 x ∧ pcm16 x ≤ 32767 := by
  refine ⟨by norm_num [pcm16, truncQ], by norm_num [pcm16, truncQ],
         by norm_num [pcm16, truncQ, Int.ceil_neg],
         by norm_num [pcm16, truncQ],
         by norm_num [pcm16, truncQ, Int.ceil_neg], ?_⟩
  intro x
  unfold pcm16
  exact truncQ_bounds _ (le_max_left _ _)
    (max_le (by norm_num) (min_le_left _ _))

/-- C6 (counterexample): in the spec's §8 scenario the last emitted event is
`result("hello")`, not `listeningStateChanged(false)` — the trace is not
"one result followed by listeningStateChanged(false)", because the timer
closure calls `stopRecording()` (which emits the state change) before
`onResult`. -/
theorem scenarioC6_counterexample :
    scenarioC6.2.getLast? = some (Event.onResult "hello") ∧
    scenarioC6.2 ≠
      [Event.onListeningStateChanged true, Event.onPartialResult "h",
       Event.onPartialResult "he", Event.onPartialResult "hello",
       Event.onResult "hello", Event.onListeningStateChanged false] := by
  decide

/-- C6 (amended): the scenario emits exactly one `result("hello")` event,
PRECEDED (not followed) by `listeningStateChanged(false)`: the full trace is
state-change(true), the three partials, state-change(false), result. -/
theorem scenarioC6_amended :
    scenarioC6.2 =
      [Event.onListeningStateChanged true, Event.onPartialResult "h",
       Event.onPartialResult "he", Event.onPartialResult "hello",
       Event.onListeningStateChanged false, Event.onResult "hello"] := by
  decide

/-- C7: `handleError` during a listening session performs the full teardown
(timer cancelled, transcript cleared, tap removed, engine stopped, stream
closed, `Idle`, routing restored) and emits an error event exactly when the
error is not the `kAFAssistantErrorDomain`/1110 "no speech detected"
condition — which is swallowed silently. -/
theorem handleError_spec (e : ErrInfo) (s : ServiceState)
    (_h : s.isListening = true) :
    HandleErrorPost e s := by
  unfold HandleErrorPost
  by_cases hc : e.domain = "kAFAssistantErrorDomain" ∧ e.code = 1110 <;>
    cases ho : s.originalAudioConfig <;>
      simp [handleError, restoreAudioSession, hc, ho]

/-- C7 (witness): the teardown-and-swallow contract holds at the concrete
listening state, for the "no speech detected" error. -/
theorem handleError_spec_witness :
    listeningState.isListening = true ∧ HandleErrorPost noSpeechErr listeningState :=
  ⟨by decide, handleError_spec noSpeechErr listeningState (by decide)⟩

/-- C8 (counterexample): `stopRecording()` while `Idle` does emit an event —
exactly the `onError(.invalidState)` delegate call — so "emits no events" is
false as stated. -/
theorem idleStop_emitsError_counterexample :
    initialState.isListening = false ∧
    (stopRecording initialState).2 = [Event.onError VoiceError.invalidState] ∧
    (stopRecording initialState).2 ≠ ([] : List Event) := by
  decide

/-- C8 (amended): at most one session listens at a time: `start` while
`Listening` and `stop` while `Idle` are self-loops that change no state
(the existing session is neither cancelled nor restarted) and report
`InvalidState` via a single error event — the idle `stop()` emits exactly
that one error event and nothing else. -/
theorem invalidState_selfLoop_amended (f : Option StartFailure)
    (opts : SessionOpts) (sL sI : ServiceState)
    (hL : sL.isListening = true) (hI : sI.isListening = false) :
    SelfLoopPost f opts sL sI := by
  unfold SelfLoopPost
  simp [startRecording, stopRecording, hL, hI]

/-- C8 (witness): the self-loop contract holds at the concrete listening and
idle states. -/
theorem invalidState_selfLoop_amended_witness :
    (listeningState.isListening = true ∧ initialState.isListening = false) ∧
    SelfLoopPost none {} listeningState initialState :=
  ⟨by decide,
   invalidState_selfLoop_amended none {} listeningState initialState
     (by decide) (by decide)⟩

/-- C9: the tap closure forwards every delivered buffer to the recognition
stream independently of the frame-observation flag; a PCM16 frame is
delivered only when `enableAudioBuffer` is set, holding the first
`min(bufferSampleCount, frameLength)` samples converted by `pcm16` — a short
buffer yields a short frame, never padded or dropped. -/
theorem tapCallback_spec (buf : List ℚ) (s : ServiceState) (b : Bool) :
    (installTapCallback buf
       { s with currentOptions :=
           { s.currentOptions with enableAudioBuffer := some b } }).1
      = s.recognitionRequest ∧
    (installTapCallback buf s).1 = s.recognitionRequest ∧
    (installTapCallback buf s).2 =
      (if s.currentOptions.enableAudioBuffer.getD false then
         some ((buf.take (min buf.length (s.currentOptions.frameLength.getD 512))).map pcm16)
       else none) ∧
    ((installTapCallback buf s).2.getD []).length =
      (if s.currentOptions.enableAudioBuffer.getD false then
         min buf.length (s.currentOptions.frameLength.getD 512)
       else 0) := by
  refine ⟨rfl, rfl, rfl, ?_⟩
  by_cases he : s.currentOptions.enableAudioBuffer.getD false <;>
    simp [installTapCallback, he]

/-- C10: every incoming partial text overwrites the transcript snapshot
before the emptiness check; a whitespace-only partial emits nothing and
leaves the armed timer untouched, so when that timer (armed by an earlier
non-empty partial) fires, the whitespace-only text is emitted as the final
result. -/
theorem whitespaceOverwrite_spec (opts armOpts : SessionOpts) (txt : String)
    (now d : Nat) (s : ServiceState) (hBlank : isBlank txt = true)
    (hArm : s.lastResultTimer = some (d, armOpts)) :
    WhitespaceOverwritePost opts txt now s := by
  unfold WhitespaceOverwritePost
  refine ⟨?_, ?_, ?_, ?_⟩
  · intro anyText
    by_cases hb : isBlank anyText <;> simp [recognitionCallback, hb]
  · simp [recognitionCallback, hBlank]
  · simp [recognitionCallback, hBlank]
  · have hTimer : (recognitionCallback opts now none (some txt) s).1.lastResultTimer
        = some (d, armOpts) := by
      simp [recognitionCallback, hBlank, hArm]
    have hTrans : (recognitionCallback opts now none (some txt) s).1.lastTranscription
        = some txt := by
      simp [recognitionCallback, hBlank]
    unfold fireTimer
    rw [hTimer]
    exact timerFired_mem armOpts _ txt (by simp [hTrans])

/-- C10 (witness): the overwrite-then-stale-finalize behaviour holds at the
concrete mid-session state (timer armed by `"hello"`) for the
whitespace-only partial `" "`. -/
theorem whitespaceOverwrite_spec_witness :
    (isBlank " " = true ∧
     listeningState.lastResultTimer = some (1000, singleOpts)) ∧
    WhitespaceOverwritePost singleOpts " " 500 listeningState :=
  ⟨by decide,
   whitespaceOverwrite_spec singleOpts singleOpts " " 500 1000 listeningState
     (by decide) (by decide)⟩
